import Mathlib

/-!
Verification of the stateful decision-and-cooldown engine of the
charlie_robin_bot repository, as a shallow embedding of the relevant parts
of src/trading_bot.py (the authoritative module; src/main.py holds a
near-duplicate of the same logic).

Modelling conventions:
* prices, cost bases and dividends (Python floats) are rationals;
* calendar dates are integers counting days, so the Python expression
  (datetime.now() - last_loss_date).days becomes today - lastLossDate;
* the module-level configuration constants MAX_DRAWDOWN_PCT and
  WASH_SALE_DAYS are passed explicitly;
* the persisted JSON state file is modelled by a savedLog field holding the
  log as of the most recent save_state call;
* broker capabilities (get_market_data, get_positions, place_order) are a
  record of functions; the concrete broker classes catch their own
  exceptions and return 0.0, an empty list, or False respectively, so those
  degraded values are in the function's range.
-/

/-- A position dictionary returned by broker.get_positions(). The code reads
the average_price, quantity and dividends keys with dict.get and default 0,
so each is an optional field here. -/
structure PositionRecord where
  symbol : String
  average_price : Option ℚ := none
  quantity : Option Int := none
  dividends : Option ℚ := none
deriving DecidableEq, Repr

/-- Bot state: washSaleLog is state["wash_sale_log"], a mapping from ticker
to the date of the last loss sale; savedLog is the content of the durable
bot_state.json file, i.e. what the most recent save_state call wrote. -/
structure BotState where
  washSaleLog : List (String × Int)
  savedLog : List (String × Int)
deriving DecidableEq, Repr

/-- The dict deletion `del state["wash_sale_log"][ticker]`. -/
def logErase (ticker : String) (l : List (String × Int)) : List (String × Int) :=
  l.filter (fun p => p.1 != ticker)

/-- The dict update `state["wash_sale_log"][ticker] = today`. -/
def logInsert (ticker : String) (today : Int) (l : List (String × Int)) :
    List (String × Int) :=
  (ticker, today) :: logErase ticker l

/-- check_wash_sale (src/trading_bot.py lines 468-491). washDays is the
WASH_SALE_DAYS constant and today the ambient datetime.now(). The function
returns the blocked flag together with the state after the call, because the
expired branch deletes the entry and calls save_state. -/
def check_wash_sale (washDays : Int) (ticker : String) (state : BotState)
    (today : Int) : Bool × BotState :=
  match state.washSaleLog.lookup ticker with
  | some lastLossDate =>
      let daysPassed := today - lastLossDate
      if daysPassed < washDays then
        (true, state)
      else
        let pruned := logErase ticker state.washSaleLog
        (false, { washSaleLog := pruned, savedLog := pruned })
  | none => (false, state)

/-- analyze_erosion (src/trading_bot.py lines 494-503). maxDrawdownPct is the
MAX_DRAWDOWN_PCT constant. The code returns the strings "SELL_CRITICAL" and
"HOLD". -/
def analyze_erosion (maxDrawdownPct : ℚ)
    (current_price avg_cost total_dividends : ℚ) : String :=
  let capital_loss := current_price - avg_cost
  let net_position := capital_loss + total_dividends
  if net_position < 0 ∧ |capital_loss| > avg_cost * maxDrawdownPct then
    "SELL_CRITICAL"
  else
    "HOLD"

/-- The broker capability as one cycle of the orchestrator consumes it:
marketPrice is get_market_data (first component), positions is
get_positions(), placeOrderOk ticker qty is place_order(ticker, "SELL", qty).
The concrete broker classes absorb their own exceptions, reporting 0.0, an
empty list, or False. -/
structure Broker where
  marketPrice : String → ℚ
  positions : List PositionRecord
  placeOrderOk : String → Int → Bool

/-- The configuration constants consumed by the cycle. -/
structure Config where
  maxDrawdownPct : ℚ
  washSaleDays : Int
  watchlist : List String

/-- Observable outcome of one watchlist iteration: which branch of
run_bot_cycle the ticker took, and for the order branch the quantity passed
to place_order and the reported success. -/
inductive Event where
  | skippedWashSale (ticker : String)
  | skippedNoPrice (ticker : String)
  | orderPlaced (ticker : String) (quantity : Int) (success : Bool)
  | held (ticker : String)
  | monitoring (ticker : String)
deriving DecidableEq, Repr

/-- The ticker an event is about. -/
def Event.symbolOf : Event → String
  | .skippedWashSale t => t
  | .skippedNoPrice t => t
  | .orderPlaced t _ _ => t
  | .held t => t
  | .monitoring t => t

/-- Python str.upper() — uppercase every character (for ASCII tickers this is
Char.toUpper on each character). -/
def upper (s : String) : String := ⟨s.data.map Char.toUpper⟩

/-- Lines 583-584: state["wash_sale_log"][ticker] = today's date, followed by
save_state(state). -/
def record_loss_sale (ticker : String) (today : Int) (state : BotState) :
    BotState :=
  let newLog := logInsert ticker today state.washSaleLog
  { washSaleLog := newLog, savedLog := newLog }

/-- Lines 570-587: the branch of the watchlist loop taken once a position
record has matched: read the fields with default 0, run analyze_erosion, and
on SELL_CRITICAL place the order and record the loss sale only on success. -/
def evaluate_position (cfg : Config) (broker : Broker) (today : Int)
    (ticker : String) (price : ℚ) (state : BotState) (pd : PositionRecord) :
    BotState × Event :=
  let avg_cost := pd.average_price.getD 0
  let quantity := pd.quantity.getD 0
  let dividends := pd.dividends.getD 0
  let decision := analyze_erosion cfg.maxDrawdownPct price avg_cost dividends
  if decision = "SELL_CRITICAL" then
    let success := broker.placeOrderOk ticker quantity
    if success then
      (record_loss_sale ticker today state, .orderPlaced ticker quantity true)
    else
      (state, .orderPlaced ticker quantity false)
  else
    (state, .held ticker)

/-- One iteration of the watchlist loop of run_bot_cycle (lines 553-589):
wash-sale check first, then the price guard `if price == 0: continue`, then
the case-insensitive position match, then evaluate_position. -/
def run_ticker (cfg : Config) (broker : Broker) (today : Int)
    (ticker : String) (state : BotState) : BotState × Event :=
  let r := check_wash_sale cfg.washSaleDays ticker state today
  if r.1 then
    (r.2, .skippedWashSale ticker)
  else
    let price := broker.marketPrice ticker
    if price = 0 then
      (r.2, .skippedNoPrice ticker)
    else
      match broker.positions.find?
          (fun p => upper p.symbol == upper ticker) with
      | some pd => evaluate_position cfg broker today ticker price r.2 pd
      | none => (r.2, .monitoring ticker)

/-- The watchlist loop threading the bot state left to right, collecting one
event per ticker. -/
def run_tickers (cfg : Config) (broker : Broker) (today : Int) :
    List String → BotState → BotState × List Event
  | [], state => (state, [])
  | t :: ts, state =>
      let r := run_ticker cfg broker today t state
      let rest := run_tickers cfg broker today ts r.1
      (rest.1, r.2 :: rest.2)

/-- run_bot_cycle's watchlist loop (lines 552-589) over the configured
WATCHLIST. -/
def run_bot_cycle (cfg : Config) (broker : Broker) (today : Int)
    (state : BotState) : BotState × List Event :=
  run_tickers cfg broker today cfg.watchlist state

theorem analyze_erosion_eq (pct price avg div : ℚ) :
    analyze_erosion pct price avg div =
      if (price - avg) + div < 0 ∧ |price - avg| > avg * pct then
        "SELL_CRITICAL"
      else
        "HOLD" := rfl

/-- C2: analyze_erosion is a pure function of its four arguments; it returns
SELL_CRITICAL exactly when the dividend-adjusted net position is strictly
negative and the absolute capital delta strictly exceeds avg_cost times the
drawdown fraction, it never returns anything but SELL_CRITICAL or HOLD, and
at cost 100, fraction 1/10, the boundary instances are: price 89 sells,
price 90 holds, price 95 with dividends 6 holds. -/
theorem analyze_erosion_spec :
    (∀ pct price avg div : ℚ,
      analyze_erosion pct price avg div = "SELL_CRITICAL" ↔
        (price - avg) + div < 0 ∧ |price - avg| > avg * pct) ∧
    (∀ pct price avg div : ℚ,
      analyze_erosion pct price avg div = "SELL_CRITICAL" ∨
      analyze_erosion pct price avg div = "HOLD") ∧
    analyze_erosion (1/10) 89 100 0 = "SELL_CRITICAL" ∧
    analyze_erosion (1/10) 90 100 0 = "HOLD" ∧
    analyze_erosion (1/10) 95 100 6 = "HOLD" := by
  refine ⟨?_, ?_, ?_, ?_, ?_⟩
  · intro pct price avg div
    rw [analyze_erosion_eq]
    split
    · next h => simpa using h
    · next h => simp [h]
  · intro pct price avg div
    rw [analyze_erosion_eq]
    split
    · exact Or.inl rfl
    · exact Or.inr rfl
  · rw [analyze_erosion_eq, if_pos (by norm_num)]
  · rw [analyze_erosion_eq, if_neg (by norm_num)]
  · rw [analyze_erosion_eq, if_neg (by norm_num)]

theorem lookup_logErase (t : String) (l : List (String × Int)) :
    (logErase t l).lookup t = none := by
  induction l with
  | nil => rfl
  | cons p l ih =>
      simp only [logErase, List.filter_cons] at ih ⊢
      by_cases h : p.1 = t
      · simp only [h, bne_self_eq_false, Bool.false_eq_true, if_false]
        exact ih
      · have hb : (p.1 != t) = true := by simp [h]
        have ht : (t == p.1) = false := beq_eq_false_iff_ne.mpr (Ne.symm h)
        simp only [hb, if_true, List.lookup, ht]
        exact ih

theorem lookup_logInsert (t : String) (d : Int) (l : List (String × Int)) :
    (logInsert t d l).lookup t = some d := by
  simp [logInsert, List.lookup]

/-- C3: the ledger restriction check: with no entry for the symbol it returns
false and leaves the state alone; with an entry at least washDays old it
deletes the entry, persists the pruned log, and returns false; with a
younger entry it returns true and leaves the state alone. -/
theorem check_wash_sale_spec (wd : Int) (t : String) (st : BotState)
    (today : Int) :
    (st.washSaleLog.lookup t = none →
      check_wash_sale wd t st today = (false, st)) ∧
    (∀ d, st.washSaleLog.lookup t = some d → wd ≤ today - d →
      check_wash_sale wd t st today =
        (false, { washSaleLog := logErase t st.washSaleLog,
                  savedLog := logErase t st.washSaleLog })) ∧
    (∀ d, st.washSaleLog.lookup t = some d → today - d < wd →
      check_wash_sale wd t st today = (true, st)) := by
  refine ⟨?_, ?_, ?_⟩
  · intro h
    simp [check_wash_sale, h]
  · intro d hd hwd
    simp [check_wash_sale, hd]
    omega
  · intro d hd hlt
    simp [check_wash_sale, hd, hlt]

theorem check_wash_sale_spec_witness :
    check_wash_sale 31 "SPY" ⟨[("SPY", 0)], []⟩ 31 =
      (false, { washSaleLog := logErase "SPY" [("SPY", 0)],
                savedLog := logErase "SPY" [("SPY", 0)] }) :=
  (check_wash_sale_spec 31 "SPY" ⟨[("SPY", 0)], []⟩ 31).2.1 0 rfl (by decide)

/-- C5: after record_loss_sale on date d1, the symbol is restricted at every
query date today with d1 ≤ today < d1 + washDays and unrestricted at every
today with d1 + washDays ≤ today. -/
theorem cooldown_monotonicity (wd : Int) (t : String) (d1 : Int)
    (st : BotState) (today : Int) :
    (d1 ≤ today → today < d1 + wd →
      (check_wash_sale wd t (record_loss_sale t d1 st) today).1 = true) ∧
    (d1 + wd ≤ today →
      (check_wash_sale wd t (record_loss_sale t d1 st) today).1 = false) := by
  have hl : (record_loss_sale t d1 st).washSaleLog.lookup t = some d1 := by
    simpa [record_loss_sale] using lookup_logInsert t d1 st.washSaleLog
  constructor
  · intro _ h2
    rw [((check_wash_sale_spec wd t (record_loss_sale t d1 st) today).2.2)
      d1 hl (by omega)]
  · intro h1
    rw [((check_wash_sale_spec wd t (record_loss_sale t d1 st) today).2.1)
      d1 hl (by omega)]

theorem cooldown_monotonicity_witness :
    (check_wash_sale 31 "X" (record_loss_sale "X" 0 ⟨[], []⟩) 30).1 = true ∧
    (check_wash_sale 31 "X" (record_loss_sale "X" 0 ⟨[], []⟩) 31).1 = false :=
  ⟨(cooldown_monotonicity 31 "X" 0 ⟨[], []⟩ 30).1 (by decide) (by decide),
   (cooldown_monotonicity 31 "X" 0 ⟨[], []⟩ 31).2 (by decide)⟩

/-- C6: pruning is idempotent: on an entry at least washDays old the first
check returns false and removes the entry, and an identical second check
returns false and leaves the state exactly as the first call left it. -/
theorem idempotent_pruning (wd : Int) (t : String) (st : BotState)
    (today d : Int) (hd : st.washSaleLog.lookup t = some d)
    (hexp : wd ≤ today - d) :
    (check_wash_sale wd t st today).1 = false ∧
    check_wash_sale wd t (check_wash_sale wd t st today).2 today =
      (false, (check_wash_sale wd t st today).2) := by
  have h1 := (check_wash_sale_spec wd t st today).2.1 d hd hexp
  rw [h1]
  refine ⟨rfl, ?_⟩
  exact (check_wash_sale_spec wd t _ today).1 (lookup_logErase t _)

theorem idempotent_pruning_witness :
    (check_wash_sale 31 "SPY" ⟨[("SPY", 0)], [("SPY", 0)]⟩ 40).1 = false ∧
    check_wash_sale 31 "SPY"
        (check_wash_sale 31 "SPY" ⟨[("SPY", 0)], [("SPY", 0)]⟩ 40).2 40 =
      (false, (check_wash_sale 31 "SPY" ⟨[("SPY", 0)], [("SPY", 0)]⟩ 40).2) :=
  idempotent_pruning 31 "SPY" ⟨[("SPY", 0)], [("SPY", 0)]⟩ 40 0 rfl (by decide)

theorem check_false_lookup_none (wd : Int) (t : String) (st : BotState)
    (today : Int) (h : (check_wash_sale wd t st today).1 = false) :
    (check_wash_sale wd t st today).2.washSaleLog.lookup t = none := by
  rcases hd : st.washSaleLog.lookup t with _ | d
  · rw [(check_wash_sale_spec wd t st today).1 hd]
    exact hd
  · by_cases hc : today - d < wd
    · rw [(check_wash_sale_spec wd t st today).2.2 d hd hc] at h
      simp at h
    · rw [(check_wash_sale_spec wd t st today).2.1 d hd (by omega)]
      exact lookup_logErase t st.washSaleLog

theorem analyze_sell_89 : analyze_erosion (1/10) 89 100 0 = "SELL_CRITICAL" := by
  rw [analyze_erosion_eq, if_pos (by norm_num)]

/-- C1: on a SELL_CRITICAL verdict for a held, unrestricted position, the
gateway is consulted and the ledger entry for the ticker is written and
persisted exactly when the gateway reports success; on a reported failure
the iteration returns the state left by the cooldown check, whose log has no
entry for the ticker and whose persisted file is unchanged by the order
step. -/
theorem order_gated_recording (cfg : Config) (broker : Broker) (today : Int)
    (ticker : String) (state : BotState) (pd : PositionRecord)
    (hres : (check_wash_sale cfg.washSaleDays ticker state today).1 = false)
    (hprice : broker.marketPrice ticker ≠ 0)
    (hfind : broker.positions.find?
      (fun p => upper p.symbol == upper ticker) = some pd)
    (hdec : analyze_erosion cfg.maxDrawdownPct (broker.marketPrice ticker)
      (pd.average_price.getD 0) (pd.dividends.getD 0) = "SELL_CRITICAL") :
    (broker.placeOrderOk ticker (pd.quantity.getD 0) = true →
      run_ticker cfg broker today ticker state =
        (record_loss_sale ticker today
            (check_wash_sale cfg.washSaleDays ticker state today).2,
          .orderPlaced ticker (pd.quantity.getD 0) true) ∧
      (run_ticker cfg broker today ticker state).1.washSaleLog.lookup ticker =
        some today ∧
      (run_ticker cfg broker today ticker state).1.savedLog =
        (run_ticker cfg broker today ticker state).1.washSaleLog) ∧
    (broker.placeOrderOk ticker (pd.quantity.getD 0) = false →
      run_ticker cfg broker today ticker state =
        ((check_wash_sale cfg.washSaleDays ticker state today).2,
          .orderPlaced ticker (pd.quantity.getD 0) false) ∧
      (run_ticker cfg broker today ticker state).1.washSaleLog.lookup ticker =
        none ∧
      (run_ticker cfg broker today ticker state).1.savedLog =
        (check_wash_sale cfg.washSaleDays ticker state today).2.savedLog) := by
  constructor
  · intro hok
    have h1 : run_ticker cfg broker today ticker state =
        (record_loss_sale ticker today
            (check_wash_sale cfg.washSaleDays ticker state today).2,
          .orderPlaced ticker (pd.quantity.getD 0) true) := by
      simp [run_ticker, evaluate_position, hres, hfind, hdec, hprice, hok]
    refine ⟨h1, ?_, ?_⟩
    · rw [h1]
      simpa [record_loss_sale] using
        lookup_logInsert ticker today
          (check_wash_sale cfg.washSaleDays ticker state today).2.washSaleLog
    · rw [h1]
      rfl
  · intro hfail
    have h1 : run_ticker cfg broker today ticker state =
        ((check_wash_sale cfg.washSaleDays ticker state today).2,
          .orderPlaced ticker (pd.quantity.getD 0) false) := by
      simp [run_ticker, evaluate_position, hres, hfind, hdec, hprice, hfail]
    refine ⟨h1, ?_, ?_⟩
    · rw [h1]
      exact check_false_lookup_none cfg.washSaleDays ticker state today hres
    · rw [h1]

theorem order_gated_recording_witness :
    run_ticker ⟨1/10, 31, ["X"]⟩
        ⟨fun _ => 89, [⟨"X", some 100, some 5, some 0⟩], fun _ _ => true⟩
        0 "X" ⟨[], []⟩ =
      (⟨[("X", 0)], [("X", 0)]⟩, .orderPlaced "X" 5 true) :=
  ((order_gated_recording ⟨1/10, 31, ["X"]⟩
      ⟨fun _ => 89, [⟨"X", some 100, some 5, some 0⟩], fun _ _ => true⟩
      0 "X" ⟨[], []⟩ ⟨"X", some 100, some 5, some 0⟩
      rfl (by norm_num) rfl analyze_sell_89).1 rfl).1

/-- C7: on a SELL_CRITICAL verdict for a held, unrestricted position, the
order handed to the gateway is a sell of the quantity field of the matched
position record (defaulted to 0), i.e. the entire current quantity at
decision time, whatever the gateway then reports. -/
theorem sell_entire_quantity (cfg : Config) (broker : Broker) (today : Int)
    (ticker : String) (state : BotState) (pd : PositionRecord)
    (hres : (check_wash_sale cfg.washSaleDays ticker state today).1 = false)
    (hprice : broker.marketPrice ticker ≠ 0)
    (hfind : broker.positions.find?
      (fun p => upper p.symbol == upper ticker) = some pd)
    (hdec : analyze_erosion cfg.maxDrawdownPct (broker.marketPrice ticker)
      (pd.average_price.getD 0) (pd.dividends.getD 0) = "SELL_CRITICAL") :
    (run_ticker cfg broker today ticker state).2 =
      .orderPlaced ticker (pd.quantity.getD 0)
        (broker.placeOrderOk ticker (pd.quantity.getD 0)) := by
  cases hok : broker.placeOrderOk ticker (pd.quantity.getD 0) with
  | false => simp [run_ticker, evaluate_position, hres, hfind, hdec, hprice, hok]
  | true => simp [run_ticker, evaluate_position, hres, hfind, hdec, hprice, hok]

theorem sell_entire_quantity_witness :
    (run_ticker ⟨1/10, 31, ["X"]⟩
        ⟨fun _ => 89, [⟨"X", some 100, some 7, some 0⟩], fun _ _ => false⟩
        0 "X" ⟨[], []⟩).2 =
      .orderPlaced "X" 7 false :=
  sell_entire_quantity ⟨1/10, 31, ["X"]⟩
    ⟨fun _ => 89, [⟨"X", some 100, some 7, some 0⟩], fun _ _ => false⟩
    0 "X" ⟨[], []⟩ ⟨"X", some 100, some 7, some 0⟩
    rfl (by norm_num) rfl analyze_sell_89

theorem analyze_sell_neg1 :
    analyze_erosion ((10 : ℚ)⁻¹) (-1) 100 0 = "SELL_CRITICAL" := by
  rw [analyze_erosion_eq, if_pos (by norm_num)]

/-- C4 counterexample: the code's data-unavailable guard is `price == 0`, not
price ≤ 0: with a reported price of -1 the instrument is not skipped — the
position is looked up, the decision runs, a sell order is placed and the
ledger is mutated. -/
theorem negative_price_not_skipped :
    ((-1 : ℚ) ≤ 0) ∧
    run_ticker ⟨1/10, 31, ["X"]⟩
        ⟨fun _ => -1, [⟨"X", some 100, some 5, some 0⟩], fun _ _ => true⟩
        0 "X" ⟨[], []⟩ =
      (⟨[("X", 0)], [("X", 0)]⟩, .orderPlaced "X" 5 true) := by
  refine ⟨by norm_num, ?_⟩
  have h1 : check_wash_sale 31 "X" ⟨[], []⟩ 0 = (false, ⟨[], []⟩) := rfl
  have h2 : ([⟨"X", some 100, some 5, some 0⟩] : List PositionRecord).find?
      (fun p => upper p.symbol == upper "X") =
      some ⟨"X", some 100, some 5, some 0⟩ := rfl
  simp [run_ticker, evaluate_position, h1, h2, analyze_sell_neg1,
    record_loss_sale, logInsert, logErase]

/-- C4 amended: for every watched symbol whose reported price is exactly 0,
the orchestrator terminates that symbol's evaluation right after the price
guard: the iteration returns the state left by the cooldown check together
with the skip event — no position lookup, decision, order or ledger
mutation. -/
theorem zero_price_skipped (cfg : Config) (broker : Broker) (today : Int)
    (ticker : String) (state : BotState)
    (hres : (check_wash_sale cfg.washSaleDays ticker state today).1 = false)
    (hprice : broker.marketPrice ticker = 0) :
    run_ticker cfg broker today ticker state =
      ((check_wash_sale cfg.washSaleDays ticker state today).2,
        .skippedNoPrice ticker) := by
  simp [run_ticker, hres, hprice]

theorem zero_price_skipped_witness :
    run_ticker ⟨1/10, 31, ["X"]⟩ ⟨fun _ => 0, [], fun _ _ => false⟩
        0 "X" ⟨[], []⟩ =
      (⟨[], []⟩, .skippedNoPrice "X") :=
  zero_price_skipped ⟨1/10, 31, ["X"]⟩ ⟨fun _ => 0, [], fun _ _ => false⟩
    0 "X" ⟨[], []⟩ rfl rfl

theorem run_ticker_symbolOf (cfg : Config) (broker : Broker) (today : Int)
    (t : String) (st : BotState) :
    ((run_ticker cfg broker today t st).2).symbolOf = t := by
  rcases hr : check_wash_sale cfg.washSaleDays t st today with ⟨b, st1⟩
  cases b
  · by_cases hp : broker.marketPrice t = 0
    · simp [run_ticker, hr, hp, Event.symbolOf]
    · rcases hf : broker.positions.find? (fun p => upper p.symbol == upper t)
        with _ | pd
      · simp [run_ticker, hr, hp, hf, Event.symbolOf]
      · simp only [run_ticker, hr, hp, hf]
        simp only [Bool.false_eq_true, if_false, if_neg hp]
        simp only [evaluate_position]
        split
        · split <;> simp [Event.symbolOf]
        · simp [Event.symbolOf]
  · simp [run_ticker, hr, Event.symbolOf]

theorem run_tickers_symbols (cfg : Config) (broker : Broker) (today : Int) :
    ∀ (l : List String) (st : BotState),
      ((run_tickers cfg broker today l st).2).map Event.symbolOf = l := by
  intro l
  induction l with
  | nil => intro st; rfl
  | cons t ts ih =>
      intro st
      simp [run_tickers, List.map_cons, run_ticker_symbolOf, ih]

/-- C8: one cycle evaluates every watchlist symbol in its configured order,
whatever values the broker capability returns — broker-side failures surface
as a price of 0, an empty position list, or a false order result (the broker
classes catch and log their own exceptions), and none of them aborts the
loop: the cycle emits exactly one event per watchlist symbol, in order. -/
theorem cycle_isolation (cfg : Config) (broker : Broker) (today : Int)
    (st : BotState) :
    ((run_bot_cycle cfg broker today st).2).map Event.symbolOf =
      cfg.watchlist := by
  unfold run_bot_cycle
  exact run_tickers_symbols cfg broker today cfg.watchlist st

theorem analyze_sell_80 :
    analyze_erosion ((10 : ℚ)⁻¹) 80 100 0 = "SELL_CRITICAL" := by
  rw [analyze_erosion_eq, if_pos (by norm_num)]

/-- C9: the position match uppercases both sides while the ledger lookup is a
case-sensitive exact match: with a fresh ledger entry for "SPY", the
watchlist ticker "spy" is reported unrestricted (the exact lookup misses)
while "SPY" itself is restricted, yet the case-insensitive position match
binds "spy" to the "SPY" position record, so the orchestrator sells "spy"
despite the live cooldown on "SPY". -/
theorem case_sensitivity_mismatch :
    check_wash_sale 31 "spy" ⟨[("SPY", 0)], [("SPY", 0)]⟩ 0 =
      (false, ⟨[("SPY", 0)], [("SPY", 0)]⟩) ∧
    check_wash_sale 31 "SPY" ⟨[("SPY", 0)], [("SPY", 0)]⟩ 0 =
      (true, ⟨[("SPY", 0)], [("SPY", 0)]⟩) ∧
    ([⟨"SPY", some 100, some 5, some 0⟩] : List PositionRecord).find?
        (fun p => upper p.symbol == upper "spy") =
      some ⟨"SPY", some 100, some 5, some 0⟩ ∧
    (run_ticker ⟨1/10, 31, ["spy"]⟩
        ⟨fun _ => 80, [⟨"SPY", some 100, some 5, some 0⟩], fun _ _ => true⟩
        0 "spy" ⟨[("SPY", 0)], [("SPY", 0)]⟩).2 =
      .orderPlaced "spy" 5 true := by
  refine ⟨rfl, rfl, rfl, ?_⟩
  have h1 : check_wash_sale 31 "spy" ⟨[("SPY", 0)], [("SPY", 0)]⟩ 0 =
      (false, ⟨[("SPY", 0)], [("SPY", 0)]⟩) := rfl
  have h2 : ([⟨"SPY", some 100, some 5, some 0⟩] : List PositionRecord).find?
      (fun p => upper p.symbol == upper "spy") =
      some ⟨"SPY", some 100, some 5, some 0⟩ := rfl
  simp [run_ticker, evaluate_position, h1, h2, analyze_sell_80]

/-- C10: the orchestrator reads the average_price, quantity and dividends
keys of a matched position record with default 0: absent keys are read as 0,
and a record carrying only a symbol is evaluated exactly like one whose
three numeric fields are explicit zeros. -/
theorem missing_fields_default_zero (cfg : Config) (broker : Broker)
    (today : Int) (ticker : String) (price : ℚ) (st : BotState) (s : String) :
    (PositionRecord.mk s none none none).average_price.getD 0 = 0 ∧
    (PositionRecord.mk s none none none).quantity.getD 0 = 0 ∧
    (PositionRecord.mk s none none none).dividends.getD 0 = 0 ∧
    evaluate_position cfg broker today ticker price st ⟨s, none, none, none⟩ =
      evaluate_position cfg broker today ticker price st
        ⟨s, some 0, some 0, some 0⟩ :=
  ⟨rfl, rfl, rfl, rfl⟩
